import Mathlib

/-!
Verification of the Google Sheets / Gmail convenience layer
(`sheets_client.py`, `sheets_helper.py`, `gmail_client.py`).

The Python code is shallowly embedded: every function is a total Lean
function; a Python exception that escapes a function is modelled by the
`Except.error` case of its result; the environment, the credential file
system and the remote Google services are explicit parameters.  A remote
endpoint invocation is recorded in a trace (`List Call`) so that claims
about how often endpoints are hit can be stated.
-/

/-- An article record: a transient dictionary whose five optional keys are
`title`, `source`, `published_at`, `url`, `raw_summary`.  A missing key is
`none`. -/
structure Article where
  title : Option String
  source : Option String
  published_at : Option String
  url : Option String
  raw_summary : Option String
deriving DecidableEq, Repr

/-- The process environment: the five variables the code reads with
`os.getenv`.  `none` means the variable is unset; `some s` means it is set
to `s` (possibly the empty string). -/
structure Env where
  GOOGLE_SPREADSHEET_ID : Option String
  GOOGLE_SERVICE_ACCOUNT_FILE : Option String
  GMAIL_TOKEN_FILE : Option String
  GMAIL_CREDENTIALS_FILE : Option String
  GMAIL_TO : Option String
deriving DecidableEq, Repr

/-- Python `a or b` on two `Optional[str]` values: `a` wins exactly when it
is truthy, i.e. a non-empty string; `None` and `""` fall through to `b`. -/
def pyOr (a b : Option String) : Option String :=
  match a with
  | none => b
  | some s => if s.isEmpty then b else some s

/-- Python falsiness of an `Optional[str]`: `None` and `""` are falsy. -/
def isFalsy : Option String → Bool
  | none => true
  | some s => s.isEmpty

/-- Python `s[:n]` on a `str`: the first `n` code points. -/
def pyTake (n : Nat) (s : String) : String :=
  String.mk (s.data.take n)

/-- One entry of the `sheets` list of a spreadsheet resource; the code only
reads the title under the properties key of each entry. -/
structure SheetInfo where
  title : String
deriving DecidableEq, Repr

/-- A row of cell values sent to or read from the spreadsheet. -/
abbrev Row := List String

/-- The `updates` sub-object of a `values.append` response. -/
structure AppendUpdates where
  updatedCells : Nat
  updatedRange : String
deriving DecidableEq, Repr

/-- A `values.append` response; `updates` may be absent. -/
structure AppendResult where
  updates : Option AppendUpdates
deriving DecidableEq, Repr

/-- A `values.update` response. -/
structure UpdateResult where
  updatedCells : Nat
deriving DecidableEq, Repr

/-- The remote Google services, as an oracle giving the outcome of each
endpoint: an `Except.error` outcome models the vendor SDK raising. -/
structure Remote where
  sheetsGet : Except String (List SheetInfo)
  valuesUpdate : Except String UpdateResult
  valuesAppend : Except String AppendResult
  valuesGet : Except String (List Row)
  gmailAuth : Except String Unit
  messagesSend : Except String String

/-- The world a call runs in: the environment, the outcome of loading the
service-account credential file at a given path, and the remote services. -/
structure World where
  env : Env
  credsLoad : String → Except String Unit
  remote : Remote

/-- The multipart message assembled by `send_news_email` before base64
encoding: subject, recipient, sender, plaintext part, HTML part. -/
structure MimeMessage where
  subject : String
  toAddr : String
  sender : String
  textBody : String
  htmlBody : String
deriving DecidableEq, Repr

/-- A recorded remote endpoint invocation, with its payload. -/
inductive Call
  | spreadsheetsGet
  | valuesUpdate (data : List Row) (range : String)
  | valuesAppend (data : List Row) (range : String)
  | valuesGet (range : String)
  | messagesSend (msg : MimeMessage)
deriving DecidableEq, Repr

/-- The endpoint an invocation hits, forgetting the payload. -/
inductive EndpointKind
  | spreadsheetsGet
  | valuesUpdate
  | valuesAppend
  | valuesGet
  | messagesSend
deriving DecidableEq, Repr

def Call.kind : Call → EndpointKind
  | .spreadsheetsGet => .spreadsheetsGet
  | .valuesUpdate _ _ => .valuesUpdate
  | .valuesAppend _ _ => .valuesAppend
  | .valuesGet _ => .valuesGet
  | .messagesSend _ => .messagesSend

/-- The endpoints hit by a trace, in order. -/
def traceKinds (t : List Call) : List EndpointKind :=
  t.map Call.kind

/-! ## `sheets_client.py` -/

/-- The state of a `SheetsClient` instance after `__init__` succeeded:
the resolved spreadsheet id and service-account path, and the
`_sheets_cache` field (initially `None`). -/
structure SheetsClient where
  spreadsheet_id : String
  service_account_file : String
  sheets_cache : Option (List SheetInfo)
deriving DecidableEq, Repr

/-- Method `SheetsClient.__init__`: resolve `spreadsheet_id` and
`service_account_file` from the argument or the environment (Python
`or`), raise `ValueError` when either is missing, then load the
service-account credentials (which may itself raise). -/
def SheetsClient.init (spreadsheet_id service_account_file : Option String)
    (env : Env) (credsLoad : String → Except String Unit) :
    Except String SheetsClient :=
  let sid := pyOr spreadsheet_id env.GOOGLE_SPREADSHEET_ID
  let saf := pyOr service_account_file env.GOOGLE_SERVICE_ACCOUNT_FILE
  if isFalsy sid then
    .error "未找到 GOOGLE_SPREADSHEET_ID，请在 .env 文件中配置或传入参数"
  else if isFalsy saf then
    .error "未找到 GOOGLE_SERVICE_ACCOUNT_FILE，请在 .env 文件中配置或传入参数"
  else
    match credsLoad (saf.getD "") with
    | .error e => .error e
    | .ok _ =>
      .ok { spreadsheet_id := sid.getD ""
            service_account_file := saf.getD ""
            sheets_cache := none }

/-- Method `SheetsClient.get_sheets`: fetch the worksheet list from the remote
service when `_sheets_cache is None or force_refresh`, otherwise answer
from the cache.  Returns the list, the updated client state, and the
trace of endpoint invocations. -/
def SheetsClient.get_sheets (c : SheetsClient) (force_refresh : Bool)
    (remote : Remote) :
    Except String (List SheetInfo × SheetsClient) × List Call :=
  if c.sheets_cache.isNone || force_refresh then
    match remote.sheetsGet with
    | .error e => (.error e, [Call.spreadsheetsGet])
    | .ok sheets =>
      (.ok (sheets, { c with sheets_cache := some sheets }),
       [Call.spreadsheetsGet])
  else
    (.ok (c.sheets_cache.getD [], c), [])

/-- Method `SheetsClient.get_first_sheet_title`: call `get_sheets()` then take the title of
the first sheet; raises `RuntimeError` when the list is empty. -/
def SheetsClient.get_first_sheet_title (c : SheetsClient) (remote : Remote) :
    Except String (String × SheetsClient) × List Call :=
  match SheetsClient.get_sheets c false remote with
  | (.error e, t) => (.error e, t)
  | (.ok (sheets, c2), t) =>
    match sheets with
    | [] => (.error "未找到任何工作表", t)
    | s :: _ => (.ok (s.title, c2), t)

/-- Method `SheetsClient.write_data`: one `values.update` call. -/
def SheetsClient.write_data (c : SheetsClient) (data : List Row)
    ( range_notation : String) (remote : Remote) :
    Except String UpdateResult × List Call :=
  (remote.valuesUpdate, [Call.valuesUpdate data range_notation])

/-- Method `SheetsClient.append_data`: one `values.append` call. -/
def SheetsClient.append_data (c : SheetsClient) (data : List Row)
    ( range_notation : String) (remote : Remote) :
    Except String AppendResult × List Call :=
  (remote.valuesAppend, [Call.valuesAppend data range_notation])

/-- Method `SheetsClient.read_data`: one `values.get` call; answers
the values field of the response, defaulting to the empty list. -/
def SheetsClient.read_data (c : SheetsClient) ( range_notation : String)
    (remote : Remote) :
    Except String (List Row) × List Call :=
  (remote.valuesGet, [Call.valuesGet range_notation])

/-- Function `get_sheets_client`: construct a `SheetsClient`. -/
def get_sheets_client (spreadsheet_id service_account_file : Option String)
    (env : Env) (credsLoad : String → Except String Unit) :
    Except String SheetsClient :=
  SheetsClient.init spreadsheet_id service_account_file env credsLoad

/-- Function `write_to_sheets`: build a client, default the range to
`f"{sheet_name}!A1"` (first worksheet title when no `sheet_title` is
given), then `write_data`.  Any exception propagates. -/
def write_to_sheets (data : List Row) ( range_notation : Option String)
    (sheet_title : Option String) (spreadsheet_id : Option String)
    (w : World) : Except String UpdateResult × List Call :=
  match get_sheets_client spreadsheet_id none w.env w.credsLoad with
  | .error e => (.error e, [])
  | .ok client =>
    match range_notation with
    | some rn => SheetsClient.write_data client data rn w.remote
    | none =>
      if isFalsy sheet_title then
        match SheetsClient.get_first_sheet_title client w.remote with
        | (.error e, t) => (.error e, t)
        | (.ok (name, client2), t) =>
          let (r, t2) :=
            SheetsClient.write_data client2 data (name ++ "!A1") w.remote
          (r, t ++ t2)
      else
        SheetsClient.write_data client data (sheet_title.getD "" ++ "!A1")
          w.remote

/-- Function `append_to_sheets`: build a client, default the range to
`f"{sheet_name}!A:Z"`, then `append_data`.  Any exception propagates. -/
def append_to_sheets (data : List Row) ( range_notation : Option String)
    (sheet_title : Option String) (spreadsheet_id : Option String)
    (w : World) : Except String AppendResult × List Call :=
  match get_sheets_client spreadsheet_id none w.env w.credsLoad with
  | .error e => (.error e, [])
  | .ok client =>
    match range_notation with
    | some rn => SheetsClient.append_data client data rn w.remote
    | none =>
      if isFalsy sheet_title then
        match SheetsClient.get_first_sheet_title client w.remote with
        | (.error e, t) => (.error e, t)
        | (.ok (name, client2), t) =>
          let (r, t2) :=
            SheetsClient.append_data client2 data (name ++ "!A:Z") w.remote
          (r, t ++ t2)
      else
        SheetsClient.append_data client data (sheet_title.getD "" ++ "!A:Z")
          w.remote

/-- Function `read_from_sheets`: build a client then `read_data`.  Any exception
propagates; on success the raw list of rows is returned, not a
success/error dictionary. -/
def read_from_sheets ( range_notation : String)
    (spreadsheet_id : Option String) (w : World) :
    Except String (List Row) × List Call :=
  match get_sheets_client spreadsheet_id none w.env w.credsLoad with
  | .error e => (.error e, [])
  | .ok client => SheetsClient.read_data client range_notation w.remote

/-! ## `gmail_client.py` -/

/-- From `get_gmail_service` line 32: the token file path,
`os.getenv("GMAIL_TOKEN_FILE", "./gmail_token.pickle")`. -/
def gmailTokenFile (env : Env) : String :=
  env.GMAIL_TOKEN_FILE.getD "./gmail_token.pickle"

/-- From `get_gmail_service` line 33: the credentials file path,
`os.getenv("GMAIL_CREDENTIALS_FILE", "./gmail_credentials.json")`. -/
def gmailCredentialsFile (env : Env) : String :=
  env.GMAIL_CREDENTIALS_FILE.getD "./gmail_credentials.json"

/-- From `send_news_email` lines 84-85: the recipient is the `to_email`
argument when truthy, otherwise `os.getenv("GMAIL_TO")`. -/
def resolveRecipient (to_email : Option String) (env : Env) : Option String :=
  pyOr to_email env.GMAIL_TO

/-- The opening constant of the HTML body (`_build_html_body` lines
144-165), braces of the CSS written as escapes. -/
def htmlHead : String :=
  "\n    <html>\n      <head>\n        <style>\n          body \x7b font-family: Arial, sans-serif; line-height: 1.6; color: #333; \x7d\n          h1 \x7b color: #2c3e50; border-bottom: 3px solid #3498db; padding-bottom: 10px; \x7d\n          .summary \x7b background-color: #f8f9fa; padding: 15px; margin: 20px 0; border-radius: 5px; border-left: 4px solid #3498db; \x7d\n          .article \x7b margin: 20px 0; padding: 15px; border-left: 3px solid #3498db; background-color: #f9f9f9; \x7d\n          .article h3 \x7b margin: 0 0 8px 0; color: #2c3e50; \x7d\n          .meta \x7b color: #7f8c8d; font-size: 0.9em; margin: 5px 0; \x7d\n          .summary-text \x7b color: #555; margin: 10px 0; \x7d\n          a \x7b color: #3498db; text-decoration: none; \x7d\n          a:hover \x7b text-decoration: underline; \x7d\n          .button \x7b display: inline-block; padding: 10px 20px; background-color: #3498db; color: white; text-decoration: none; border-radius: 5px; margin: 10px 0; \x7d\n        </style>\n      </head>\n      <body>\n        <h1>📰 新闻日报</h1>\n        \n        <div class=\"summary\">\n          <strong>📊 本期摘要</strong><br>\n    "

/-- The per-article HTML block of the loop in `_build_html_body` lines
181-197, with the documented defaults for missing fields. -/
def htmlArticleBlock (i : Nat) (article : Article) : String :=
  let title := article.title.getD "无标题"
  let source := article.source.getD "未知来源"
  let published_at := article.published_at.getD "N/A"
  let url := article.url.getD "#"
  let summary := article.raw_summary.getD "暂无摘要"
  "\n        <div class=\"article\">\n          <h3>" ++ toString i ++ ". "
    ++ title
    ++ "</h3>\n          <div class=\"meta\">\n            📍 来源: <strong>"
    ++ source ++ "</strong> | 🕐 发布时间: " ++ published_at
    ++ "\n          </div>\n          <div class=\"summary-text\">"
    ++ summary ++ "</div>\n          <a href=\"" ++ url
    ++ "\">阅读全文 →</a>\n        </div>\n        "

/-- The overflow notice appended by `_build_html_body` lines 200-206 when
more than 10 articles are supplied. -/
def htmlOverflowNotice (n : Nat) : String :=
  "\n        <div class=\"summary\">\n          <strong>📌 注意:</strong> 为了邮件简洁，仅显示前 10 条新闻。\n          完整的 "
    ++ toString n
    ++ " 条新闻请查看 Google Sheets。\n        </div>\n        "

/-- The closing constant of the HTML body (lines 208-211). -/
def htmlTail : String := "\n      </body>\n    </html>\n    "

/-- The Python loop `for i, article in enumerate(articles[:10], 1):
body += render(i, article)`, as a fold that threads the accumulated
body string. -/
def appendNumbered (render : Nat → Article → String) :
    Nat → List Article → String → String
  | _, [], acc => acc
  | i, a :: rest, acc => appendNumbered render (i + 1) rest (acc ++ render i a)

/-- Function `_build_html_body`: the statement-by-statement transliteration of
lines 144-213. -/
def build_html_body (articles : List Article)
    (time_window sheet_url : Option String) : String :=
  let html := htmlHead
  let html := html ++ ("          • 新闻总数: <strong>"
    ++ toString articles.length ++ "</strong><br>\n")
  let html := if isFalsy time_window then html
    else html ++ ("          • 时间范围: " ++ time_window.getD "" ++ "<br>\n")
  let html := html ++ "        </div>\n"
  let html := if isFalsy sheet_url then html
    else html ++ ("        <p><a href=\"" ++ sheet_url.getD ""
      ++ "\" class=\"button\">📊 查看完整报告（Google Sheets）</a></p>\n")
  let html := html ++ "        <h2>📑 今日头条</h2>\n"
  let html := appendNumbered htmlArticleBlock 1 (articles.take 10) html
  let html := if articles.length > 10 then
    html ++ htmlOverflowNotice articles.length else html
  html ++ htmlTail

/-- Python `"=" * 60`. -/
def sepLine : String := String.mk (List.replicate 60 '=')

/-- The per-article plaintext block of the loop in `_build_text_body`
lines 240-252, with the documented defaults for missing fields. -/
def textArticleBlock (i : Nat) (article : Article) : String :=
  let title := article.title.getD "无标题"
  let source := article.source.getD "未知来源"
  let published_at := article.published_at.getD "N/A"
  let url := article.url.getD "#"
  let summary := article.raw_summary.getD "暂无摘要"
  toString i ++ ". " ++ title ++ "\n"
    ++ ("   来源: " ++ source ++ "\n")
    ++ ("   时间: " ++ published_at ++ "\n")
    ++ ("   摘要: " ++ summary ++ "\n")
    ++ ("   链接: " ++ url ++ "\n")
    ++ "\n"

/-- The overflow notice appended by `_build_text_body` lines 254-255. -/
def textOverflowNotice (n : Nat) : String :=
  "\n注意: 仅显示前 10 条新闻，完整的 " ++ toString n
    ++ " 条新闻请查看 Google Sheets。\n"

/-- Function `_build_text_body`: transliteration of lines 216-259. -/
def build_text_body (articles : List Article)
    (time_window sheet_url : Option String) : String :=
  let text := sepLine ++ "\n"
  let text := text ++ "📰 新闻日报\n"
  let text := text ++ (sepLine ++ "\n\n")
  let text := text ++ ("新闻总数: " ++ toString articles.length ++ "\n")
  let text := if isFalsy time_window then text
    else text ++ ("时间范围: " ++ time_window.getD "" ++ "\n")
  let text := if isFalsy sheet_url then text
    else text ++ ("\n📊 查看完整报告: " ++ sheet_url.getD "" ++ "\n")
  let text := text ++ ("\n" ++ sepLine ++ "\n")
  let text := text ++ "📑 今日头条\n"
  let text := text ++ (sepLine ++ "\n\n")
  let text := appendNumbered textArticleBlock 1 (articles.take 10) text
  let text := if articles.length > 10 then
    text ++ textOverflowNotice articles.length else text
  text ++ (sepLine ++ "\n")

/-- The result dictionary of `send_news_email`: `message_id` is present
exactly on success, `error` exactly on failure. -/
structure SendResult where
  success : Bool
  message_id : Option String
  error : Option String
deriving DecidableEq, Repr

/-- Function `send_news_email`: resolve the recipient (configuration error result
when missing), default the subject, then inside `try`: authenticate,
assemble the multipart message, call `messages.send` once; any exception
becomes a `{success: False, error}` result. -/
def send_news_email (articles : List Article)
    (to_email subject time_window sheet_url : Option String)
    (w : World) : SendResult × List Call :=
  let toVal := resolveRecipient to_email w.env
  if isFalsy toVal then
    ({ success := false, message_id := none,
       error := some "未设置收件人邮箱（GMAIL_TO）" }, [])
  else
    let subj := if isFalsy subject then
      "📰 新闻日报 - " ++ toString articles.length ++ " 条新闻"
    else subject.getD ""
    match w.remote.gmailAuth with
    | .error e => ({ success := false, message_id := none, error := some e }, [])
    | .ok _ =>
      let msg : MimeMessage :=
        { subject := subj
          toAddr := toVal.getD ""
          sender := "me"
          textBody := build_text_body articles time_window sheet_url
          htmlBody := build_html_body articles time_window sheet_url }
      match w.remote.messagesSend with
      | .ok mid =>
        ({ success := true, message_id := some mid, error := none },
         [Call.messagesSend msg])
      | .error e =>
        ({ success := false, message_id := none, error := some e },
         [Call.messagesSend msg])

/-- Function `send_email`: the convenience alias that forwards to
`send_news_email`. -/
def send_email (articles : List Article)
    (to_email subject time_window sheet_url : Option String)
    (w : World) : SendResult × List Call :=
  send_news_email articles to_email subject time_window sheet_url w

/-! ## `sheets_helper.py` -/

/-- The base of every sheet URL the helpers format. -/
def sheetUrlBase : String := "https://docs.google.com/spreadsheets/d/"

/-- The data row built from one article by `save_news_to_sheets` lines
51-58: the five optional fields with the empty string as default, the summary cut to
its first 500 characters. -/
def articleRow (article : Article) : Row :=
  [article.published_at.getD "",
   article.title.getD "",
   article.source.getD "",
   article.url.getD "",
   pyTake 500 (article.raw_summary.getD "")]

/-- The batch separator row (`save_news_to_sheets` line 44), `now` being
`datetime.now().strftime("%Y-%m-%d %H:%M:%S")`. -/
def timestampRow (now : String) : Row :=
  ["=== 批次: " ++ now ++ " ===", "", "", "", ""]

/-- The header row of `save_news_to_sheets` line 48 and
`create_sheets_header` line 96. -/
def headerRow : Row :=
  ["发布时间", "标题", "来源", "链接", "摘要"]

/-- From `save_news_to_sheets` lines 39-58: start from `[]`, append the
timestamp row when `add_timestamp`, the header row when `add_header`,
then one data row per article (a fold, mirroring the `for` loop). -/
def save_news_build_rows (articles : List Article)
    (add_header add_timestamp : Bool) (now : String) : List Row :=
  let rows : List Row := []
  let rows := if add_timestamp then rows ++ [timestampRow now] else rows
  let rows := if add_header then rows ++ [headerRow] else rows
  articles.foldl (fun acc a => acc ++ [articleRow a]) rows

/-- The result dictionary of `save_news_to_sheets`. -/
structure SaveResult where
  success : Bool
  updated_cells : Option Nat
  updated_range : Option String
  sheet_url : Option String
  error : Option String
deriving DecidableEq, Repr

/-- Function `save_news_to_sheets`: inside `try`: build the rows, append them via
`append_to_sheets`, build a second client for the sheet URL, and return
the success dictionary; any exception becomes `{success: False, error}`. -/
def save_news_to_sheets (articles : List Article)
    (add_header add_timestamp : Bool) (now : String) (w : World) :
    SaveResult × List Call :=
  let rows := save_news_build_rows articles add_header add_timestamp now
  match append_to_sheets rows none none none w with
  | (.error e, t) =>
    ({ success := false, updated_cells := none, updated_range := none,
       sheet_url := none, error := some e }, t)
  | (.ok result, t) =>
    match get_sheets_client none none w.env w.credsLoad with
    | .error e =>
      ({ success := false, updated_cells := none, updated_range := none,
         sheet_url := none, error := some e }, t)
    | .ok client =>
      ({ success := true
         updated_cells := some ((result.updates.map
           AppendUpdates.updatedCells).getD 0)
         updated_range := some ((result.updates.map
           AppendUpdates.updatedRange).getD "")
         sheet_url := some (sheetUrlBase ++ client.spreadsheet_id)
         error := none }, t)

/-- The result dictionary of `create_sheets_header`. -/
structure HeaderResult where
  success : Bool
  sheet_url : Option String
  error : Option String
deriving DecidableEq, Repr

/-- Function `create_sheets_header`: inside `try`: write the header row via
`write_to_sheets`, build a client for the sheet URL, return the success
dictionary; any exception becomes `{success: False, error}`. -/
def create_sheets_header (w : World) : HeaderResult × List Call :=
  match write_to_sheets [headerRow] none none none w with
  | (.error e, t) =>
    ({ success := false, sheet_url := none, error := some e }, t)
  | (.ok _, t) =>
    match get_sheets_client none none w.env w.credsLoad with
    | .error e =>
      ({ success := false, sheet_url := none, error := some e }, t)
    | .ok client =>
      ({ success := true, sheet_url := some (sheetUrlBase
         ++ client.spreadsheet_id), error := none }, t)

/-- Function `get_sheet_url`: inside `try`: build a client and format the URL from
its spreadsheet id; a bare `except` turns any failure into `None`. -/
def get_sheet_url (env : Env) (credsLoad : String → Except String Unit) :
    Option String :=
  match get_sheets_client none none env credsLoad with
  | .ok client => some (sheetUrlBase ++ client.spreadsheet_id)
  | .error _ => none

/-! ## Statement helpers -/

/-- Python `enumerate(l, i)`: the elements of `l` paired with their 1-based (or
`i`-based) positions. -/
def numberFrom : Nat → List Article → List (Nat × Article)
  | _, [] => []
  | i, a :: rest => (i, a) :: numberFrom (i + 1) rest

/-- Concatenation of a list of strings. -/
def concatAll : List String → String
  | [] => ""
  | s :: rest => s ++ concatAll rest

/-- The part of the HTML body built before the article loop (used to
state the decomposition of `build_html_body`). -/
def htmlBodyLead (articles : List Article)
    (time_window sheet_url : Option String) : String :=
  let html := htmlHead
  let html := html ++ ("          • 新闻总数: <strong>"
    ++ toString articles.length ++ "</strong><br>\n")
  let html := if isFalsy time_window then html
    else html ++ ("          • 时间范围: "
      ++ time_window.getD "" ++ "<br>\n")
  let html := html ++ "        </div>\n"
  let html := if isFalsy sheet_url then html
    else html ++ ("        <p><a href=\"" ++ sheet_url.getD ""
      ++ "\" class=\"button\">📊 查看完整报告（Google Sheets）</a></p>\n")
  html ++ "        <h2>📑 今日头条</h2>\n"

/-- The part of the plaintext body built before the article loop (used to
state the decomposition of `build_text_body`). -/
def textBodyLead (articles : List Article)
    (time_window sheet_url : Option String) : String :=
  let text := sepLine ++ "\n"
  let text := text ++ "📰 新闻日报\n"
  let text := text ++ (sepLine ++ "\n\n")
  let text := text ++ ("新闻总数: " ++ toString articles.length ++ "\n")
  let text := if isFalsy time_window then text
    else text ++ ("时间范围: " ++ time_window.getD "" ++ "\n")
  let text := if isFalsy sheet_url then text
    else text ++ ("\n📊 查看完整报告: " ++ sheet_url.getD "" ++ "\n")
  let text := text ++ ("\n" ++ sepLine ++ "\n")
  let text := text ++ "📑 今日头条\n"
  text ++ (sepLine ++ "\n\n")

/-! ## Sample data for concrete evaluations -/

/-- An environment with every variable set. -/
def sampleEnv : Env :=
  { GOOGLE_SPREADSHEET_ID := some "sheet-id-1"
    GOOGLE_SERVICE_ACCOUNT_FILE := some "sa.json"
    GMAIL_TOKEN_FILE := some "token.pickle"
    GMAIL_CREDENTIALS_FILE := some "creds.json"
    GMAIL_TO := some "news@example.com" }

/-- An environment with no variable set. -/
def emptyEnv : Env := ⟨none, none, none, none, none⟩

/-- A credential file that always loads. -/
def credsOk : String → Except String Unit := fun _ => .ok ()

/-- A remote on which every endpoint succeeds. -/
def sampleRemote : Remote :=
  { sheetsGet := .ok [⟨"Sheet1"⟩]
    valuesUpdate := .ok ⟨5⟩
    valuesAppend := .ok ⟨some ⟨15, "Sheet1!A1:E3"⟩⟩
    valuesGet := .ok [["a", "b"]]
    gmailAuth := .ok ()
    messagesSend := .ok "msg-1" }

/-- A fully configured, fully working world. -/
def sampleWorld : World := ⟨sampleEnv, credsOk, sampleRemote⟩

/-- A world with an empty environment (every remote call would succeed). -/
def emptyWorld : World := ⟨emptyEnv, credsOk, sampleRemote⟩

/-- An article with every field present. -/
def sampleArticle : Article :=
  { title := some "T"
    source := some "S"
    published_at := some "2024-01-01"
    url := some "https://example.com/a"
    raw_summary := some "R" }

/-- A client state as built by a successful `__init__`. -/
def clientA : SheetsClient := ⟨"id1", "sa.json", none⟩

/-- A remote whose spreadsheet has a single worksheet `Alpha`. -/
def remoteA : Remote :=
  { sampleRemote with sheetsGet := .ok [⟨"Alpha"⟩] }

/-- The same spreadsheet after the worksheet was renamed to `Beta`. -/
def remoteB : Remote :=
  { sampleRemote with sheetsGet := .ok [⟨"Beta"⟩] }

/-! ## Theorems -/

theorem appendNumbered_eq (render : Nat → Article → String) :
    ∀ (l : List Article) (i : Nat) (acc : String),
    appendNumbered render i l acc =
      acc ++ concatAll ((numberFrom i l).map fun p => render p.1 p.2) := by
  intro l
  induction l with
  | nil =>
    intro i acc
    simp [appendNumbered, numberFrom, concatAll, String.append_empty]
  | cons a rest ih =>
    intro i acc
    simp only [appendNumbered, numberFrom, List.map_cons, concatAll, ih,
      String.append_assoc]

theorem numberFrom_map_snd : ∀ (l : List Article) (i : Nat),
    (numberFrom i l).map Prod.snd = l := by
  intro l
  induction l with
  | nil => intro i; simp [numberFrom]
  | cons a rest ih => intro i; simp [numberFrom, ih]

theorem numberFrom_map_fst : ∀ (l : List Article) (i : Nat),
    (numberFrom i l).map Prod.fst = List.range' i l.length := by
  intro l
  induction l with
  | nil => intro i; simp [numberFrom, List.range']
  | cons a rest ih => intro i; simp [numberFrom, ih, List.range']

theorem numberFrom_length : ∀ (l : List Article) (i : Nat),
    (numberFrom i l).length = l.length := by
  intro l
  induction l with
  | nil => intro i; simp [numberFrom]
  | cons a rest ih => intro i; simp [numberFrom, ih]

/-- C1: the HTML body and the plaintext body each render exactly the first
`min 10 (length articles)` articles inline, numbered from 1 in input
order, and contain the overflow notice exactly when more than 10 articles
are supplied. -/
theorem email_bodies_first_ten_and_overflow (articles : List Article)
    (time_window sheet_url : Option String) :
    build_html_body articles time_window sheet_url =
      htmlBodyLead articles time_window sheet_url
        ++ concatAll ((numberFrom 1 (articles.take 10)).map
             fun p => htmlArticleBlock p.1 p.2)
        ++ (if articles.length > 10 then htmlOverflowNotice articles.length
            else "")
        ++ htmlTail
    ∧ build_text_body articles time_window sheet_url =
      textBodyLead articles time_window sheet_url
        ++ concatAll ((numberFrom 1 (articles.take 10)).map
             fun p => textArticleBlock p.1 p.2)
        ++ (if articles.length > 10 then textOverflowNotice articles.length
            else "")
        ++ (sepLine ++ "\n")
    ∧ (numberFrom 1 (articles.take 10)).map Prod.snd = articles.take 10
    ∧ (numberFrom 1 (articles.take 10)).map Prod.fst =
        List.range' 1 (min 10 articles.length)
    ∧ (numberFrom 1 (articles.take 10)).length = min 10 articles.length
    ∧ min 10 articles.length ≤ 10 := by
  refine ⟨?_, ?_, numberFrom_map_snd _ _, ?_, ?_, Nat.min_le_left _ _⟩
  · simp only [build_html_body, htmlBodyLead]
    rw [appendNumbered_eq]
    by_cases h : articles.length > 10 <;>
      simp [h, String.append_assoc, String.append_empty]
  · simp only [build_text_body, textBodyLead]
    rw [appendNumbered_eq]
    by_cases h : articles.length > 10 <;>
      simp [h, String.append_assoc, String.append_empty]
  · rw [numberFrom_map_fst, List.length_take, Nat.min_comm]
  · rw [numberFrom_length, List.length_take, Nat.min_comm]

/-- C4: both body builders behave as if every missing field had been
replaced by its documented placeholder, and the sheet row builder as if
every missing field had been replaced by the empty string; a fully empty
article yields exactly the placeholder row. -/
theorem missing_fields_use_documented_defaults :
    (∀ (i : Nat) (a : Article),
      htmlArticleBlock i a = htmlArticleBlock i
        { title := some (a.title.getD "无标题")
          source := some (a.source.getD "未知来源")
          published_at := some (a.published_at.getD "N/A")
          url := some (a.url.getD "#")
          raw_summary := some (a.raw_summary.getD "暂无摘要") }
      ∧ textArticleBlock i a = textArticleBlock i
        { title := some (a.title.getD "无标题")
          source := some (a.source.getD "未知来源")
          published_at := some (a.published_at.getD "N/A")
          url := some (a.url.getD "#")
          raw_summary := some (a.raw_summary.getD "暂无摘要") })
    ∧ (∀ a : Article,
      articleRow a = articleRow
        { title := some (a.title.getD "")
          source := some (a.source.getD "")
          published_at := some (a.published_at.getD "")
          url := some (a.url.getD "")
          raw_summary := some (a.raw_summary.getD "") })
    ∧ articleRow ⟨none, none, none, none, none⟩ = ["", "", "", "", ""]
    ∧ textArticleBlock 1 ⟨none, none, none, none, none⟩ =
        "1. 无标题\n   来源: 未知来源\n   时间: N/A\n   摘要: 暂无摘要\n   链接: #\n\n" := by
  refine ⟨fun i a => ⟨?_, ?_⟩, fun a => ?_, ?_, ?_⟩
  · simp [htmlArticleBlock]
  · simp [textArticleBlock]
  · simp [articleRow]
  · decide
  · decide

/-- C8: the fifth cell of the sheet row built from an article is the
article's `raw_summary` cut to its first 500 characters, the empty string
when the field is missing, hence never longer than 500 characters. -/
theorem summary_cell_truncated_to_500 (a : Article) :
    (articleRow a).get? 4 = some (pyTake 500 (a.raw_summary.getD ""))
    ∧ (pyTake 500 (a.raw_summary.getD "")).length ≤ 500
    ∧ (a.raw_summary = none → (articleRow a).get? 4 = some "") := by
  refine ⟨by simp [articleRow], ?_, ?_⟩
  · show (String.mk ((a.raw_summary.getD "").data.take 500)).length ≤ 500
    rw [String.length_mk, List.length_take]
    exact Nat.min_le_left _ _
  · intro h
    simp [articleRow, h, pyTake]

theorem summary_cell_truncated_to_500_witness :
    (articleRow ⟨none, none, none, none, none⟩).get? 4 = some "" :=
  (summary_cell_truncated_to_500 ⟨none, none, none, none, none⟩).2.2 rfl

theorem save_news_build_rows_eq (articles : List Article)
    (add_header add_timestamp : Bool) (now : String) :
    save_news_build_rows articles add_header add_timestamp now =
      (if add_timestamp then [timestampRow now] else [])
        ++ (if add_header then [headerRow] else [])
        ++ articles.map articleRow := by
  have hfold : ∀ (l : List Article) (acc : List Row),
      l.foldl (fun acc a => acc ++ [articleRow a]) acc =
        acc ++ l.map articleRow := by
    intro l
    induction l with
    | nil => intro acc; simp
    | cons a rest ih => intro acc; simp [ih]
  simp only [save_news_build_rows, hfold]
  cases add_timestamp <;> cases add_header <;> simp

/-- A client that `get_sheets_client` hands out starts with an empty
worksheet cache. -/
theorem get_sheets_client_cache_none (sid saf : Option String) (env : Env)
    (cl : String → Except String Unit) (c : SheetsClient)
    (h : get_sheets_client sid saf env cl = .ok c) : c.sheets_cache = none := by
  simp only [get_sheets_client, SheetsClient.init] at h
  by_cases h1 : isFalsy (pyOr sid env.GOOGLE_SPREADSHEET_ID) <;> simp [h1] at h
  by_cases h2 : isFalsy (pyOr saf env.GOOGLE_SERVICE_ACCOUNT_FILE) <;>
    simp [h2] at h
  rcases hc : cl ((pyOr saf env.GOOGLE_SERVICE_ACCOUNT_FILE).getD "") with
    e | u <;> simp [hc] at h
  rw [← h]

/-- Full characterization of `append_to_sheets` when neither a range nor a
sheet title is supplied: resolve the first worksheet title (one
`spreadsheets.get`), then one `values.append` to `{title}!A:Z`. -/
theorem append_to_sheets_none_eq (data : List Row) (w : World) :
    append_to_sheets data none none none w =
      match get_sheets_client none none w.env w.credsLoad with
      | .error e => (.error e, [])
      | .ok _ =>
        match w.remote.sheetsGet with
        | .error e => (.error e, [Call.spreadsheetsGet])
        | .ok [] => (.error "未找到任何工作表", [Call.spreadsheetsGet])
        | .ok (s :: _) =>
          (w.remote.valuesAppend,
           [Call.spreadsheetsGet, Call.valuesAppend data (s.title ++ "!A:Z")]) := by
  unfold append_to_sheets
  rcases hinit : get_sheets_client none none w.env w.credsLoad with e | client
  · simp
  · have hc : client.sheets_cache = none :=
      get_sheets_client_cache_none _ _ _ _ _ hinit
    unfold SheetsClient.get_first_sheet_title SheetsClient.get_sheets
    rcases hr : w.remote.sheetsGet with e | sheets
    · simp [hc, hr, isFalsy]
    · cases sheets <;> simp [hc, hr, isFalsy, SheetsClient.append_data]

/-- Function `save_news_to_sheets` leaves exactly the trace of the
`append_to_sheets` call it makes. -/
theorem save_news_trace_eq (articles : List Article)
    (add_header add_timestamp : Bool) (now : String) (w : World) :
    (save_news_to_sheets articles add_header add_timestamp now w).2 =
      (append_to_sheets
        (save_news_build_rows articles add_header add_timestamp now)
        none none none w).2 := by
  simp only [save_news_to_sheets]
  rcases happ : append_to_sheets
    (save_news_build_rows articles add_header add_timestamp now)
    none none none w with ⟨res, t⟩
  rcases res with e | result
  · rfl
  · rcases hg : get_sheets_client none none w.env w.credsLoad with e | client <;>
      simp [hg]

/-- C9: every row list handed to `values.append` by `save_news_to_sheets`
is, in order, the timestamp separator row exactly when `add_timestamp`,
the header row exactly when `add_header`, then one 5-cell row per article
in input order; its length is the article count plus one per enabled
flag. -/
theorem save_news_appended_rows (articles : List Article)
    (add_header add_timestamp : Bool) (now : String) (w : World) :
    ∀ d r, Call.valuesAppend d r ∈
        (save_news_to_sheets articles add_header add_timestamp now w).2 →
      d = (if add_timestamp then [timestampRow now] else [])
            ++ (if add_header then [headerRow] else [])
            ++ articles.map articleRow
      ∧ d.length = articles.length + (if add_timestamp then 1 else 0)
            + (if add_header then 1 else 0) := by
  intro d r hmem
  rw [save_news_trace_eq, append_to_sheets_none_eq] at hmem
  have hd : d = save_news_build_rows articles add_header add_timestamp now := by
    rcases hinit : get_sheets_client none none w.env w.credsLoad with e | client <;>
      rw [hinit] at hmem
    · simp at hmem
    · rcases hr : w.remote.sheetsGet with e | sheets <;> rw [hr] at hmem
      · simp at hmem
      · cases sheets with
        | nil => simp at hmem
        | cons s rest => simp at hmem; exact hmem.1
  rw [hd, save_news_build_rows_eq]
  refine ⟨rfl, ?_⟩
  cases add_timestamp <;> cases add_header <;>
    simp [timestampRow, headerRow]

set_option maxRecDepth 4000 in
theorem save_news_appended_rows_witness :
    save_news_build_rows [sampleArticle] true true "2024-01-01 00:00:00" =
      [timestampRow "2024-01-01 00:00:00"] ++ [headerRow]
        ++ [sampleArticle].map articleRow
    ∧ (save_news_build_rows [sampleArticle] true true
        "2024-01-01 00:00:00").length = 3 := by
  have h := save_news_appended_rows [sampleArticle] true true
    "2024-01-01 00:00:00" sampleWorld
    (save_news_build_rows [sampleArticle] true true "2024-01-01 00:00:00")
    "Sheet1!A:Z" (by decide)
  refine ⟨by simpa using h.1, by simpa using h.2⟩

/-- A trace of at most one invocation hits every endpoint at most once. -/
theorem count_le_one_of_short {k : EndpointKind} {t : List EndpointKind}
    (h : t.length ≤ 1) : t.count k ≤ 1 :=
  le_trans (List.count_le_length _ _) h

theorem send_news_email_trace_len (articles : List Article)
    (te subj tw sh : Option String) (w : World) :
    (send_news_email articles te subj tw sh w).2.length ≤ 1 := by
  unfold send_news_email
  by_cases h : isFalsy (resolveRecipient te w.env) <;> simp [h]
  rcases ha : w.remote.gmailAuth with e | u <;> simp [ha]
  rcases hs : w.remote.messagesSend with e | mid <;> simp [hs]

theorem read_from_sheets_trace_len (rn : String) (sid : Option String)
    (w : World) :
    (read_from_sheets rn sid w).2.length ≤ 1 := by
  unfold read_from_sheets
  rcases h : get_sheets_client sid none w.env w.credsLoad with e | c <;>
    simp [h, SheetsClient.read_data]

theorem append_to_sheets_count (data : List Row) (rn st sid : Option String)
    (w : World) (k : EndpointKind) :
    (traceKinds (append_to_sheets data rn st sid w).2).count k ≤ 1 := by
  unfold append_to_sheets
  rcases h : get_sheets_client sid none w.env w.credsLoad with e | client
  · simp [h, traceKinds]
  · have hc := get_sheets_client_cache_none _ _ _ _ _ h
    rcases rn with _ | rnv
    · by_cases hst : isFalsy st
      · simp only [h, hst]
        unfold SheetsClient.get_first_sheet_title SheetsClient.get_sheets
        rcases hr : w.remote.sheetsGet with e | sheets
        · simp [hc, hr, traceKinds, Call.kind]
          cases k <;> decide
        · cases sheets <;>
            simp [hc, hr, traceKinds, Call.kind, SheetsClient.append_data] <;>
            cases k <;> decide
      · simp [h, hst, SheetsClient.append_data, traceKinds, Call.kind]
        cases k <;> decide
    · simp [h, SheetsClient.append_data, traceKinds, Call.kind]
      cases k <;> decide

theorem write_to_sheets_count (data : List Row) (rn st sid : Option String)
    (w : World) (k : EndpointKind) :
    (traceKinds (write_to_sheets data rn st sid w).2).count k ≤ 1 := by
  unfold write_to_sheets
  rcases h : get_sheets_client sid none w.env w.credsLoad with e | client
  · simp [h, traceKinds]
  · have hc := get_sheets_client_cache_none _ _ _ _ _ h
    rcases rn with _ | rnv
    · by_cases hst : isFalsy st
      · simp only [h, hst]
        unfold SheetsClient.get_first_sheet_title SheetsClient.get_sheets
        rcases hr : w.remote.sheetsGet with e | sheets
        · simp [hc, hr, traceKinds, Call.kind]
          cases k <;> decide
        · cases sheets <;>
            simp [hc, hr, traceKinds, Call.kind, SheetsClient.write_data] <;>
            cases k <;> decide
      · simp [h, hst, SheetsClient.write_data, traceKinds, Call.kind]
        cases k <;> decide
    · simp [h, SheetsClient.write_data, traceKinds, Call.kind]
      cases k <;> decide

/-- C6: within one invocation of each public operation, every remote
endpoint is hit at most once, in every world, also when calls fail. -/
theorem no_endpoint_invoked_twice (articles : List Article)
    (te subj tw sh : Option String) (add_header add_timestamp : Bool)
    (now : String) (data : List Row) (rn st sid : Option String)
    (rnr : String) (w : World) (k : EndpointKind) :
    (traceKinds (send_news_email articles te subj tw sh w).2).count k ≤ 1
    ∧ (traceKinds (save_news_to_sheets articles add_header add_timestamp
        now w).2).count k ≤ 1
    ∧ (traceKinds (write_to_sheets data rn st sid w).2).count k ≤ 1
    ∧ (traceKinds (append_to_sheets data rn st sid w).2).count k ≤ 1
    ∧ (traceKinds (read_from_sheets rnr sid w).2).count k ≤ 1 := by
  refine ⟨?_, ?_, write_to_sheets_count _ _ _ _ _ _,
    append_to_sheets_count _ _ _ _ _ _, ?_⟩
  · exact count_le_one_of_short (by
      simpa [traceKinds] using send_news_email_trace_len articles te subj tw sh w)
  · rw [save_news_trace_eq]
    exact append_to_sheets_count _ _ _ _ _ _
  · exact count_le_one_of_short (by
      simpa [traceKinds] using read_from_sheets_trace_len rnr sid w)

/-- C2 counterexample: with no spreadsheet id configured,
`read_from_sheets` propagates the `ValueError` raised by
`SheetsClient.__init__` (modelled as `Except.error`) instead of returning
a `{success: bool, ...}` dictionary — contradicting the claim that it
returns such a shape and never raises. -/
theorem read_from_sheets_raises_counterexample :
    read_from_sheets "Sheet1!A1:B2" none emptyWorld =
      (.error "未找到 GOOGLE_SPREADSHEET_ID，请在 .env 文件中配置或传入参数",
       []) := by
  rfl

/-- C2 (amended): `send_news_email`, `save_news_to_sheets` and
`create_sheets_header` catch every failure and return a
`{success: bool, error: string on failure}` result; but
`read_from_sheets` (like `write_to_sheets` and `append_to_sheets`)
returns the raw API response — a plain row list on success — and
propagates any exception from client construction. -/
theorem wrapped_ops_return_result_shape :
    (∀ (articles : List Article) (te subj tw sh : Option String) (w : World),
      ((send_news_email articles te subj tw sh w).1.success = true
        ∧ (send_news_email articles te subj tw sh w).1.error = none
        ∧ ((send_news_email articles te subj tw sh w).1.message_id).isSome
            = true)
      ∨ ((send_news_email articles te subj tw sh w).1.success = false
        ∧ ((send_news_email articles te subj tw sh w).1.error).isSome = true
        ∧ (send_news_email articles te subj tw sh w).1.message_id = none))
    ∧ (∀ (articles : List Article) (hdr ts : Bool) (now : String) (w : World),
      ((save_news_to_sheets articles hdr ts now w).1.success = true
        ∧ (save_news_to_sheets articles hdr ts now w).1.error = none)
      ∨ ((save_news_to_sheets articles hdr ts now w).1.success = false
        ∧ ((save_news_to_sheets articles hdr ts now w).1.error).isSome
            = true))
    ∧ (∀ w : World,
      ((create_sheets_header w).1.success = true
        ∧ (create_sheets_header w).1.error = none)
      ∨ ((create_sheets_header w).1.success = false
        ∧ ((create_sheets_header w).1.error).isSome = true))
    ∧ (∀ (rn : String) (sid : Option String) (w : World) (e : String),
        get_sheets_client sid none w.env w.credsLoad = .error e →
        read_from_sheets rn sid w = (.error e, []))
    ∧ (∀ (rn : String) (sid : Option String) (w : World) (c : SheetsClient),
        get_sheets_client sid none w.env w.credsLoad = .ok c →
        read_from_sheets rn sid w =
          (w.remote.valuesGet, [Call.valuesGet rn])) := by
  refine ⟨?_, ?_, ?_, ?_, ?_⟩
  · intro articles te subj tw sh w
    unfold send_news_email
    by_cases h : isFalsy (resolveRecipient te w.env) <;> simp [h]
    rcases ha : w.remote.gmailAuth with e | u <;> simp [ha]
    rcases hs : w.remote.messagesSend with e | mid <;> simp [hs]
  · intro articles hdr ts now w
    unfold save_news_to_sheets
    rcases happ : append_to_sheets
      (save_news_build_rows articles hdr ts now) none none none w with ⟨res, t⟩
    rcases res with e | result
    · simp [happ]
    · rcases hg : get_sheets_client none none w.env w.credsLoad with e | c <;>
        simp [happ, hg]
  · intro w
    unfold create_sheets_header
    rcases hwr : write_to_sheets [headerRow] none none none w with ⟨res, t⟩
    rcases res with e | result
    · simp [hwr]
    · rcases hg : get_sheets_client none none w.env w.credsLoad with e | c <;>
        simp [hwr, hg]
  · intro rn sid w e h
    unfold read_from_sheets
    simp [h]
  · intro rn sid w c h
    unfold read_from_sheets
    simp [h, SheetsClient.read_data]

theorem wrapped_ops_return_result_shape_witness :
    read_from_sheets "Sheet1!A1:B2" none sampleWorld =
      (.ok [["a", "b"]], [Call.valuesGet "Sheet1!A1:B2"]) := by
  have h := wrapped_ops_return_result_shape.2.2.2.2 "Sheet1!A1:B2" none
    sampleWorld ⟨"sheet-id-1", "sa.json", none⟩ (by rfl)
  simpa [sampleWorld, sampleRemote] using h

/-- C3 counterexample: `write_to_sheets` needs the spreadsheet id; with it
absent from both the arguments and the environment, the operation
propagates the `ValueError` raised by `SheetsClient.__init__` (an
unhandled exception for its caller) instead of yielding an error
result. -/
theorem config_missing_crash_counterexample :
    write_to_sheets [["x"]] none none none emptyWorld =
      (.error "未找到 GOOGLE_SPREADSHEET_ID，请在 .env 文件中配置或传入参数",
       []) := by
  rfl

/-- C3 (amended): a missing required configuration value yields a
deterministic error: `send_news_email` and `save_news_to_sheets` return a
deterministic `{success: False, error}` result and `get_sheet_url`
returns `None`, while the bare sheet wrappers (`read_from_sheets`,
`write_to_sheets`, `append_to_sheets`) raise a deterministic `ValueError`
naming the missing variable rather than returning a result. -/
theorem config_missing_behavior :
    (∀ (articles : List Article) (subj tw sh : Option String) (w : World),
      isFalsy w.env.GMAIL_TO = true →
      send_news_email articles none subj tw sh w =
        ({ success := false, message_id := none,
           error := some "未设置收件人邮箱（GMAIL_TO）" }, []))
    ∧ (∀ (articles : List Article) (hdr ts : Bool) (now : String) (w : World),
      w.env.GOOGLE_SPREADSHEET_ID = none →
      save_news_to_sheets articles hdr ts now w =
        ({ success := false, updated_cells := none, updated_range := none,
           sheet_url := none,
           error := some "未找到 GOOGLE_SPREADSHEET_ID，请在 .env 文件中配置或传入参数" },
         []))
    ∧ (∀ (env : Env) (cl : String → Except String Unit),
      env.GOOGLE_SPREADSHEET_ID = none → get_sheet_url env cl = none)
    ∧ (∀ (rn : String) (w : World),
      w.env.GOOGLE_SPREADSHEET_ID = none →
      read_from_sheets rn none w =
        (.error "未找到 GOOGLE_SPREADSHEET_ID，请在 .env 文件中配置或传入参数",
         [])) := by
  have hinit : ∀ (w : World), w.env.GOOGLE_SPREADSHEET_ID = none →
      get_sheets_client none none w.env w.credsLoad =
        .error "未找到 GOOGLE_SPREADSHEET_ID，请在 .env 文件中配置或传入参数" := by
    intro w h
    simp [get_sheets_client, SheetsClient.init, pyOr, h, isFalsy]
  refine ⟨?_, ?_, ?_, ?_⟩
  · intro articles subj tw sh w h
    unfold send_news_email
    simp [resolveRecipient, pyOr, isFalsy] at h ⊢
    rcases hto : w.env.GMAIL_TO with _ | v
    · simp [hto]
    · simp [hto] at h ⊢
      simp [h]
  · intro articles hdr ts now w h
    simp only [save_news_to_sheets]
    rw [append_to_sheets_none_eq, hinit w h]
  · intro env cl h
    unfold get_sheet_url
    have : get_sheets_client none none env cl =
        .error "未找到 GOOGLE_SPREADSHEET_ID，请在 .env 文件中配置或传入参数" := by
      simp [get_sheets_client, SheetsClient.init, pyOr, h, isFalsy]
    rw [this]
  · intro rn w h
    unfold read_from_sheets
    rw [hinit w h]

theorem config_missing_behavior_witness :
    send_news_email [sampleArticle] none none none none emptyWorld =
      ({ success := false, message_id := none,
         error := some "未设置收件人邮箱（GMAIL_TO）" }, [])
    ∧ get_sheet_url emptyEnv credsOk = none :=
  ⟨config_missing_behavior.1 [sampleArticle] none none none emptyWorld rfl,
   config_missing_behavior.2.2.1 emptyEnv credsOk rfl⟩

/-- C5 counterexample: `get_sheets` does cache.  A first call stores the
worksheet list; a second call — after the remote spreadsheet changed —
makes no remote invocation (empty trace) and returns the stale cached
list, not the remote state at the time of the call. -/
theorem get_sheets_caches_counterexample :
    SheetsClient.get_sheets clientA false remoteA =
      (.ok ([⟨"Alpha"⟩], ⟨"id1", "sa.json", some [⟨"Alpha"⟩]⟩),
       [Call.spreadsheetsGet])
    ∧ SheetsClient.get_sheets ⟨"id1", "sa.json", some [⟨"Alpha"⟩]⟩ false
        remoteB =
      (.ok ([⟨"Alpha"⟩], ⟨"id1", "sa.json", some [⟨"Alpha"⟩]⟩), [])
    ∧ remoteB.sheetsGet = .ok [⟨"Beta"⟩]
    ∧ ([⟨"Alpha"⟩] : List SheetInfo) ≠ [⟨"Beta"⟩] := by
  refine ⟨rfl, rfl, rfl, by decide⟩

/-- C5 (amended): `get_sheets` fetches from the remote service exactly
when the cache is empty or `force_refresh` is set; a cached unforced call
returns the cached list with no remote invocation (so it can be stale),
and a forced call always refetches and reflects the current remote
state. -/
theorem get_sheets_cache_behavior (c : SheetsClient) (force : Bool)
    (r r2 : Remote) :
    (SheetsClient.get_sheets c force r).2 =
      (if c.sheets_cache.isNone || force then [Call.spreadsheetsGet] else [])
    ∧ (∀ l, c.sheets_cache = some l →
        SheetsClient.get_sheets c false r = (.ok (l, c), []))
    ∧ (∀ s, r.sheetsGet = .ok s →
        SheetsClient.get_sheets c true r =
          (.ok (s, { c with sheets_cache := some s }), [Call.spreadsheetsGet]))
    ∧ (∀ s, c.sheets_cache = none → r.sheetsGet = .ok s →
        SheetsClient.get_sheets c false r =
          (.ok (s, { c with sheets_cache := some s }), [Call.spreadsheetsGet])
        ∧ SheetsClient.get_sheets { c with sheets_cache := some s } false r2 =
          (.ok (s, { c with sheets_cache := some s }), [])) := by
  refine ⟨?_, ?_, ?_, ?_⟩
  · by_cases hf : (c.sheets_cache.isNone || force) = true
    · rcases hr : r.sheetsGet with e | sheets <;>
        simp [SheetsClient.get_sheets, hf, hr]
    · simp [SheetsClient.get_sheets, hf]
  · intro l hl
    simp [SheetsClient.get_sheets, hl]
  · intro s hs
    simp [SheetsClient.get_sheets, hs]
  · intro s h1 h2
    exact ⟨by simp [SheetsClient.get_sheets, h1, h2],
           by simp [SheetsClient.get_sheets]⟩

theorem get_sheets_cache_behavior_witness :
    SheetsClient.get_sheets ⟨"id1", "sa.json", some [⟨"Alpha"⟩]⟩ false
      remoteB = (.ok ([⟨"Alpha"⟩], ⟨"id1", "sa.json", some [⟨"Alpha"⟩]⟩), []) :=
  (get_sheets_cache_behavior ⟨"id1", "sa.json", some [⟨"Alpha"⟩]⟩ false
    remoteB remoteB).2.1 [⟨"Alpha"⟩] rfl

/-- C7 counterexample: an explicitly supplied (empty-string) argument does
not take precedence over the environment — Python `or` is truthiness
based, so a client built with an empty-string id argument uses the
spreadsheet id from the environment. -/
theorem explicit_empty_arg_counterexample :
    SheetsClient.init (some "") (some "sa.json")
      { emptyEnv with GOOGLE_SPREADSHEET_ID := some "ENVID" } credsOk =
      .ok { spreadsheet_id := "ENVID", service_account_file := "sa.json",
            sheets_cache := none }
    ∧ "ENVID" ≠ "" := by
  exact ⟨rfl, by decide⟩

/-- A non-empty string is truthy. -/
theorem isEmpty_false_of_ne (v : String) (hv : v ≠ "") : v.isEmpty = false := by
  cases h : v.isEmpty
  · rfl
  · exact absurd ((String.isEmpty_iff v).mp (by simp [h])) hv

theorem pyOr_truthy (v : String) (b : Option String) (hv : v ≠ "") :
    pyOr (some v) b = some v := by
  simp [pyOr, isEmpty_false_of_ne v hv]

theorem pyOr_none_left (b : Option String) : pyOr none b = b := rfl

theorem pyOr_empty_left (b : Option String) : pyOr (some "") b = b := rfl

/-- The fields of a successfully constructed client are the Python-`or`
resolutions of argument and environment. -/
theorem SheetsClient.init_ok_fields (sid saf : Option String) (env : Env)
    (cl : String → Except String Unit) (c : SheetsClient)
    (h : SheetsClient.init sid saf env cl = .ok c) :
    c.spreadsheet_id = (pyOr sid env.GOOGLE_SPREADSHEET_ID).getD ""
    ∧ c.service_account_file =
        (pyOr saf env.GOOGLE_SERVICE_ACCOUNT_FILE).getD "" := by
  simp only [SheetsClient.init] at h
  split at h
  · exact absurd h (by simp)
  · split at h
    · exact absurd h (by simp)
    · split at h
      · exact absurd h (by simp)
      · simp only [Except.ok.injEq] at h
        subst h
        exact ⟨rfl, rfl⟩

/-- C7 (amended): each configuration value falls back to its named
environment variable when the explicit argument is absent, and a supplied
argument takes precedence exactly when it is truthy (non-empty); a `None`
or empty-string argument falls back to the environment; the Gmail file
paths come from their variables with hard-coded defaults. -/
theorem config_resolution_behavior :
    (∀ (v : String) (env : Env) (cl : String → Except String Unit)
        (saf : Option String) (c : SheetsClient), v ≠ "" →
        SheetsClient.init (some v) saf env cl = .ok c → c.spreadsheet_id = v)
    ∧ (∀ (env : Env) (cl : String → Except String Unit) (saf : Option String)
        (c : SheetsClient),
        SheetsClient.init none saf env cl = .ok c →
        c.spreadsheet_id = env.GOOGLE_SPREADSHEET_ID.getD "")
    ∧ (∀ (env : Env) (cl : String → Except String Unit) (saf : Option String)
        (c : SheetsClient),
        SheetsClient.init (some "") saf env cl = .ok c →
        c.spreadsheet_id = env.GOOGLE_SPREADSHEET_ID.getD "")
    ∧ (∀ (v : String) (env : Env) (cl : String → Except String Unit)
        (sid : Option String) (c : SheetsClient), v ≠ "" →
        SheetsClient.init sid (some v) env cl = .ok c →
        c.service_account_file = v)
    ∧ (∀ (env : Env) (s : String), env.GMAIL_TOKEN_FILE = some s →
        gmailTokenFile env = s)
    ∧ (∀ env : Env, env.GMAIL_TOKEN_FILE = none →
        gmailTokenFile env = "./gmail_token.pickle")
    ∧ (∀ (env : Env) (s : String), env.GMAIL_CREDENTIALS_FILE = some s →
        gmailCredentialsFile env = s)
    ∧ (∀ env : Env, env.GMAIL_CREDENTIALS_FILE = none →
        gmailCredentialsFile env = "./gmail_credentials.json")
    ∧ (∀ (v : String) (env : Env), v ≠ "" →
        resolveRecipient (some v) env = some v)
    ∧ (∀ env : Env, resolveRecipient none env = env.GMAIL_TO)
    ∧ (∀ env : Env, resolveRecipient (some "") env = env.GMAIL_TO) := by
  refine ⟨?_, ?_, ?_, ?_, ?_, ?_, ?_, ?_, ?_, ?_, ?_⟩
  · intro v env cl saf c hv h
    rw [(SheetsClient.init_ok_fields _ _ _ _ _ h).1, pyOr_truthy v _ hv]
    rfl
  · intro env cl saf c h
    rw [(SheetsClient.init_ok_fields _ _ _ _ _ h).1, pyOr_none_left]
  · intro env cl saf c h
    rw [(SheetsClient.init_ok_fields _ _ _ _ _ h).1, pyOr_empty_left]
  · intro v env cl sid c hv h
    rw [(SheetsClient.init_ok_fields _ _ _ _ _ h).2, pyOr_truthy v _ hv]
    rfl
  · intro env s h
    simp [gmailTokenFile, h]
  · intro env h
    simp [gmailTokenFile, h]
  · intro env s h
    simp [gmailCredentialsFile, h]
  · intro env h
    simp [gmailCredentialsFile, h]
  · intro v env hv
    simp only [resolveRecipient]
    exact pyOr_truthy v _ hv
  · intro env
    rfl
  · intro env
    rfl

theorem config_resolution_behavior_witness :
    gmailTokenFile sampleEnv = "token.pickle"
    ∧ resolveRecipient (some "a@b.example") sampleEnv = some "a@b.example"
    ∧ resolveRecipient none sampleEnv = some "news@example.com" :=
  ⟨config_resolution_behavior.2.2.2.2.1 sampleEnv "token.pickle" rfl,
   config_resolution_behavior.2.2.2.2.2.2.2.2.1 "a@b.example" sampleEnv
     (by decide),
   config_resolution_behavior.2.2.2.2.2.2.2.2.2.1 sampleEnv⟩

/-- C10: `get_sheet_url` never raises: it is total, returns the fixed URL
base followed by the resolved spreadsheet id whenever a client can be
constructed, and `None` on any construction failure, including missing
configuration. -/
theorem get_sheet_url_total (env : Env) (cl : String → Except String Unit) :
    (∀ c : SheetsClient, get_sheets_client none none env cl = .ok c →
      get_sheet_url env cl = some (sheetUrlBase ++ c.spreadsheet_id))
    ∧ (∀ e : String, get_sheets_client none none env cl = .error e →
      get_sheet_url env cl = none)
    ∧ (env.GOOGLE_SPREADSHEET_ID = none → get_sheet_url env cl = none) := by
  refine ⟨?_, ?_, ?_⟩
  · intro c h
    unfold get_sheet_url
    rw [h]
  · intro e h
    unfold get_sheet_url
    rw [h]
  · intro h
    unfold get_sheet_url
    have : get_sheets_client none none env cl =
        .error "未找到 GOOGLE_SPREADSHEET_ID，请在 .env 文件中配置或传入参数" := by
      simp [get_sheets_client, SheetsClient.init, pyOr, h, isFalsy]
    rw [this]

theorem get_sheet_url_total_witness :
    get_sheet_url sampleEnv credsOk =
      some "https://docs.google.com/spreadsheets/d/sheet-id-1"
    ∧ get_sheet_url emptyEnv credsOk = none :=
  ⟨(get_sheet_url_total sampleEnv credsOk).1
      ⟨"sheet-id-1", "sa.json", none⟩ (by rfl),
   (get_sheet_url_total emptyEnv credsOk).2.2 rfl⟩
